import Mathlib

/-!
Verification of the time-series forecasting and evaluation pipeline of
src/sales_forecasting.py.

The shallow embedding below translates the functions of that file into Lean:

* a daily sales series (the `amount` column of the processed dataframe) is a
  `List (Option ℚ)`, where `none` stands for a missing (NaN) entry and
  `some x` for the numeric value `x`;
* `validate_data`, `determine_optimal_parameters`, the train/test split of
  `main`, `make_future_predictions` and `evaluate_forecast` are translated
  function by function from the source;
* the external library calls (the SARIMAX fit, its `get_forecast`, the CSV
  read) are abstracted as inputs: an `Env` record supplies their outcomes,
  and `main_run` replays the control flow of `main` over such an
  environment, emitting the ordered list of pipeline events it performs;
* sklearn metric semantics are embedded over ℚ:
  `mean_squared_error` is the mean of squared differences, and
  `mean_absolute_percentage_error` divides by `max |actual| eps` with
  `eps = 2 ^ (-52)` (the float64 machine epsilon), both raising - modelled
  as `Except.error` - on length mismatch or empty input;
* float NaN results are modelled as `none`; the code stores
  `RMSE = sqrt(MSE)`, which is irrational in general, so the `Metrics`
  record keeps the (rational) mean squared error and theorems speak of
  `Real.sqrt` of it.
-/

namespace SalesForecasting

/-- The `amount` column of the input dataframe: one entry per row, `none`
models a NaN (missing) value. -/
abbrev Series := List (Option ℚ)

/-- The validation failure reasons of `validate_data`, in the order the
source checks them; the Python function returns `False` and logs the
reason, so we model its outcome as `Option ValidationReason` with `none`
for success (`True`). -/
inductive ValidationReason where
  | EmptySeries
  | InsufficientData
  | MissingValues
  | NegativeValues
deriving DecidableEq

/-- Pandas read `df.empty` (line 39): reads the frame, leaves it unchanged. -/
def pd_empty (s : Series) : Bool × Series := (s.isEmpty, s)

/-- Pandas read `len(df)` (line 44): leaves the frame unchanged. -/
def pd_len (s : Series) : Nat × Series := (s.length, s)

/-- Pandas read `df[amount].isnull().any()` (line 49): leaves the frame
unchanged. -/
def pd_isnull_any (s : Series) : Bool × Series := (s.any (·.isNone), s)

/-- One entry of the pandas comparison `df[amount] < 0` (line 54): a NaN
compares as `False`. -/
def pd_neg_entry : Option ℚ → Bool
  | some x => decide (x < 0)
  | none => false

/-- Pandas read `(df[amount] < 0).any()` (line 54): leaves the frame
unchanged. -/
def pd_neg_any (s : Series) : Bool × Series := (s.any pd_neg_entry, s)

/-- `validate_data` (lines 33-62), in state-passing form: every pandas
operation it performs returns the frame it was handed, so the second
component tracks the state of the input across the call.  The checks run
in source order: empty, length below 14, missing values, negative values. -/
def validate_data_st (s : Series) : Option ValidationReason × Series :=
  let r1 := pd_empty s
  if r1.1 then (some ValidationReason.EmptySeries, r1.2) else
  let r2 := pd_len r1.2
  if r2.1 < 14 then (some ValidationReason.InsufficientData, r2.2) else
  let r3 := pd_isnull_any r2.2
  if r3.1 then (some ValidationReason.MissingValues, r3.2) else
  let r4 := pd_neg_any r3.2
  if r4.1 then (some ValidationReason.NegativeValues, r4.2) else (none, r4.2)

/-- The outcome of `validate_data`: `none` is the source returning `True`,
`some r` is `False` with reason `r` logged. -/
def validate_data (s : Series) : Option ValidationReason :=
  (validate_data_st s).1

/-- `determine_optimal_parameters` (lines 82-105): seasonal period 12 when
the series has at least 365 samples, 7 otherwise; orders fixed at (1,1,1)
and (1,1,1,period).  The try-block body (one `len` call and pure tuple
construction) cannot raise, so the except fallback of line 105 is
unreachable and the function is total. -/
def determine_optimal_parameters (data : Series) :
    (Nat × Nat × Nat) × (Nat × Nat × Nat × Nat) :=
  let n_samples := data.length
  let seasonal_period := if 365 ≤ n_samples then 12 else 7
  ((1, 1, 1), (1, 1, 1, seasonal_period))

/-- `test_period = min(30, len(historical_data) // 3)` (line 377). -/
def test_period (n : Nat) : Nat := min 30 (n / 3)

/-- Python slice `xs[:-t]` (line 381): empty when `t = 0` (since `xs[:0]`
is empty), otherwise the prefix up to the last `t` elements. -/
def sliceDropLast (xs : Series) (t : Nat) : Series :=
  if t = 0 then [] else xs.take (xs.length - t)

/-- Python slice `xs[-t:]` (line 382): the whole list when `t = 0`,
otherwise the suffix of the last `t` elements. -/
def sliceLast (xs : Series) (t : Nat) : Series :=
  if t = 0 then xs else xs.drop (xs.length - t)

/-- The train/test split of `main` (lines 377-382): train slice, test
slice, and the under-7-days warning flag of line 378 (a logged warning;
the run continues either way). -/
def split_data (s : Series) : Series × Series × Bool :=
  let tp := test_period s.length
  (sliceDropLast s tp, sliceLast s tp, decide (tp < 7))

/-- Float64 machine epsilon `np.finfo(np.float64).eps = 2 ^ (-52)`, the
substitute denominator sklearn uses for zero actual values in
`mean_absolute_percentage_error`. -/
def eps : ℚ := 1 / 2 ^ 52

/-- sklearn `mean_squared_error(actual, predicted)`: mean of squared
differences over the paired entries. -/
def mse (a p : List ℚ) : ℚ :=
  (((a.zip p).map (fun q => (q.1 - q.2) ^ 2)).sum) / (a.length : ℚ)

/-- sklearn `mean_absolute_percentage_error(actual, predicted)`: mean of
`|a - p| / max |a| eps`; a zero actual value is replaced by `eps` in the
denominator, so the result is always a finite number. -/
def sk_mape (a p : List ℚ) : ℚ :=
  (((a.zip p).map (fun q => |q.1 - q.2| / max |q.1| eps)).sum) / (a.length : ℚ)

/-- The metrics dictionary of `evaluate_forecast`; `none` models a float
NaN.  The source stores `RMSE = sqrt(mse)`; since that is irrational in
general we record the mean squared error, and theorems state the RMSE
properties through `Real.sqrt`. -/
structure Metrics where
  rmseSq : Option ℚ
  mape : Option ℚ
deriving DecidableEq

/-- The `{RMSE: nan, MAPE: nan}` dictionary returned by the except branch
(line 208). -/
def nanMetrics : Metrics := ⟨none, none⟩

/-- The try-block body of `evaluate_forecast` (lines 195-204): the sklearn
metric calls raise (`Except.error`) when the two sequences have different
lengths or are empty, and otherwise produce the metrics dictionary. -/
def evaluate_body (a p : List ℚ) : Except Unit Metrics :=
  if a.length = p.length ∧ a.length ≠ 0 then
    Except.ok ⟨some (mse a p), some (100 * sk_mape a p)⟩
  else Except.error ()

/-- `evaluate_forecast` (lines 187-208): the try/except wrapper around the
metric computation; any internal exception yields the NaN dictionary. -/
def evaluate_forecast (a p : List ℚ) : Metrics :=
  match evaluate_body a p with
  | Except.ok m => m
  | Except.error _ => nanMetrics

/-- The per-step output of the fitted model's `get_forecast` call
(line 154): the predicted mean and the two columns of `conf_int()`,
indexed by forecast step. -/
structure ForecastOutput where
  mean : Nat → ℚ
  lower : Nat → ℚ
  upper : Nat → ℚ

/-- One row of the forecast dataframe built at lines 168-173; the date is
a day number (days since an arbitrary epoch). -/
structure ForecastRow where
  date : ℤ
  predicted_sales : ℚ
  lower_ci : ℚ
  upper_ci : ℚ
deriving DecidableEq

/-- The rows of the forecast dataframe: `pd.date_range` starting the day
after `last_date` (line 162) paired positionally with the forecast mean
and confidence-interval columns. -/
def forecast_rows (f : ForecastOutput) (last_date : ℤ) (periods : Nat) :
    List ForecastRow :=
  (List.range periods).map
    (fun i => ⟨last_date + 1 + (i : ℤ), f.mean i, f.lower i, f.upper i⟩ :
      Nat → ForecastRow)

/-- `make_future_predictions` (lines 133-185).  A non-positive `periods`
returns `None` (line 145); the `get_forecast` library call is abstracted
as an `Option ForecastOutput` argument whose `none` case models the call
raising, caught by the except branch (line 183).  The `isinstance` guard
of line 149 is satisfied by construction (the argument is a model
handle). -/
def make_future_predictions (fc : Option ForecastOutput) (last_date : ℤ)
    (periods : ℤ) : Option (List ForecastRow) :=
  if periods ≤ 0 then none
  else
    match fc with
    | none => none
    | some f => some (forecast_rows f last_date periods.toNat)

/-- The pipeline events `main` (lines 349-416) performs, in execution
order.  `trained n` records an invocation of `train_sarima_model` on a
series of length `n`; `forecasted k` records the
`make_future_predictions` call for `k` future days; `splitDone` records
the train/test slicing of lines 381-382 with the two slice lengths;
`evaluated` records the accuracy block of lines 390-399 (including its
internal except branch); `reported` records the visualization/report
block of lines 401-410, whose errors are swallowed. -/
inductive Event where
  | validated (ok : Bool)
  | trained (n : Nat)
  | forecasted (periods : Nat)
  | splitDone (trainLen testLen : Nat)
  | evaluated
  | reported
deriving DecidableEq

/-- Whether an event is an invocation of a model trainer. -/
def Event.isTrainEvent : Event → Bool
  | Event.trained _ => true
  | _ => false

/-- Whether an event is the train/test split. -/
def Event.isSplitEvent : Event → Bool
  | Event.splitDone _ _ => true
  | _ => false

/-- Whether an event is the future-forecast generation. -/
def Event.isForecastEvent : Event → Bool
  | Event.forecasted _ => true
  | _ => false

/-- Whether an event is the held-out accuracy evaluation. -/
def Event.isEvalEvent : Event → Bool
  | Event.evaluated => true
  | _ => false

/-- The causes with which `main` returns early (each an `error`-level log
followed by `return`), tagged with the validation reason when the early
return comes from `load_processed_data` handing back `None` after
`validate_data` failed. -/
inductive FailCause where
  | loadError
  | validation (r : ValidationReason)
  | insufficientHistorical
  | trainFullFailed
  | forecastFailed
  | trainTestFailed
deriving DecidableEq

/-- Terminal outcome of a `main` run: completion with the accuracy
metrics of lines 390-399, or an early return. -/
inductive RunResult where
  | done (m : Metrics)
  | failed (c : FailCause)
deriving DecidableEq

/-- Whether a run result is the successful terminal state. -/
def RunResult.isDone : RunResult → Bool
  | RunResult.done _ => true
  | RunResult.failed _ => false

/-- Outcomes of the external calls `main` performs, abstracted as inputs:
the CSV read of `load_processed_data` (`none` = the read raised), the
last date of the index, whether each of the two SARIMAX fits converges,
the full-data model's `get_forecast` output (`none` = the call raised
inside `make_future_predictions`), and the test model's
`get_forecast(...).predicted_mean` values (`none` = that call raised,
landing in the inner except of line 397). -/
structure Env where
  csv : Option Series
  lastDate : ℤ
  fitFull : Bool
  fullForecast : Option ForecastOutput
  fitTrain : Bool
  testPred : Option (Nat → ℚ)

/-- `main` (lines 349-416) replayed over an abstract environment,
returning the ordered event trace and the terminal outcome.  The source
order is: load+validate (355), the minimum-30-days gate (360), training
on the FULL historical series (365), the 180-day future forecast (371),
the train/test split (377-382), training on the train slice (385), the
held-out evaluation (390-399), and the report/visualization block
(401-412); each `None` check is an early return. -/
def main_run (env : Env) : List Event × RunResult :=
  match env.csv with
  | none => ([], RunResult.failed FailCause.loadError)
  | some s =>
    match validate_data s with
    | some r => ([Event.validated false], RunResult.failed (FailCause.validation r))
    | none =>
      if s.length < 30 then
        ([Event.validated true], RunResult.failed FailCause.insufficientHistorical)
      else if env.fitFull then
        match make_future_predictions env.fullForecast env.lastDate 180 with
        | none =>
          ([Event.validated true, Event.trained s.length, Event.forecasted 180],
            RunResult.failed FailCause.forecastFailed)
        | some _ =>
          let tp := test_period s.length
          let train := sliceDropLast s tp
          let test := sliceLast s tp
          if env.fitTrain then
            let metrics :=
              match env.testPred with
              | none => nanMetrics
              | some pr =>
                  evaluate_forecast (test.filterMap id) ((List.range tp).map pr)
            ([Event.validated true, Event.trained s.length, Event.forecasted 180,
              Event.splitDone train.length test.length, Event.trained train.length,
              Event.evaluated, Event.reported],
              RunResult.done metrics)
          else
            ([Event.validated true, Event.trained s.length, Event.forecasted 180,
              Event.splitDone train.length test.length, Event.trained train.length],
              RunResult.failed FailCause.trainTestFailed)
      else
        ([Event.validated true, Event.trained s.length],
          RunResult.failed FailCause.trainFullFailed)

/-- Whether, in a trace, the first event satisfying `P` occurs strictly
before the first event satisfying `Q`. -/
def stagePrecedes (tr : List Event) (P Q : Event → Bool) : Bool :=
  match tr.findIdx? P, tr.findIdx? Q with
  | some i, some j => decide (i < j)
  | _, _ => false

/-! Helper lemmas. -/

/-- Every pandas operation in `validate_data` hands the frame back
unchanged, so the state component of the call is the input itself. -/
theorem validate_data_st_frame (s : Series) : (validate_data_st s).2 = s := by
  simp only [validate_data_st, pd_empty, pd_len, pd_isnull_any, pd_neg_any]
  repeat' split
  all_goals rfl

/-- Characterization of a successful validation: at least 14 points, no
missing entry, no negative entry. -/
theorem validate_data_eq_none_iff (s : Series) :
    validate_data s = none ↔
      14 ≤ s.length ∧ (∀ v ∈ s, v ≠ none) ∧ (∀ x : ℚ, some x ∈ s → 0 ≤ x) := by
  simp only [validate_data, validate_data_st, pd_empty, pd_len, pd_isnull_any,
    pd_neg_any]
  by_cases h1 : s.isEmpty
  · have hs : s = [] := List.isEmpty_iff.mp h1
    subst hs
    simp
  · simp only [h1, if_false]
    by_cases h2 : s.length < 14
    · simp only [h2, if_true]
      simp
      omega
    · simp only [h2, if_false]
      by_cases h3 : s.any (·.isNone)
      · simp only [h3, if_true]
        simp only [List.any_eq_true] at h3
        obtain ⟨v, hv, hvn⟩ := h3
        simp
        intro _ hall
        exact absurd (Option.isNone_iff_eq_none.mp hvn) (hall v hv)
      · simp only [h3, if_false]
        by_cases h4 : s.any pd_neg_entry
        · simp only [h4, if_true]
          simp only [List.any_eq_true] at h4
          obtain ⟨v, hv, hvn⟩ := h4
          cases v with
          | none => simp [pd_neg_entry] at hvn
          | some x =>
            simp only [pd_neg_entry, decide_eq_true_eq] at hvn
            simp
            intro _ _
            exact ⟨x, hv, hvn⟩
        · simp only [h4, if_false]
          constructor
          · intro _
            refine ⟨by omega, ?_, ?_⟩
            · intro v hv hvnone
              subst hvnone
              exact absurd (List.any_eq_true.mpr ⟨none, hv, rfl⟩) h3
            · intro x hx
              by_contra hneg
              push_neg at hneg
              exact absurd (List.any_eq_true.mpr
                ⟨some x, hx, by simp [pd_neg_entry, hneg]⟩) h4
          · intro _
            rfl

/-- A series that passes the first three checks and holds a negative value
fails at the fourth check. -/
theorem validate_data_negative (s : Series) (hlen : 14 ≤ s.length)
    (hmiss : ∀ v ∈ s, v ≠ none) (hneg : ∃ x : ℚ, some x ∈ s ∧ x < 0) :
    validate_data s = some ValidationReason.NegativeValues := by
  obtain ⟨x, hx, hxneg⟩ := hneg
  have h1 : s.isEmpty = false := by
    cases s with
    | nil => simp at hlen
    | cons a t => rfl
  have h2 : ¬ s.length < 14 := not_lt.mpr hlen
  have h3 : s.any (·.isNone) = false := by
    rw [List.any_eq_false]
    intro v hv
    simp only [Option.isNone_iff_eq_none]
    exact hmiss v hv
  have h4 : s.any pd_neg_entry = true :=
    List.any_eq_true.mpr ⟨some x, hx, by simp [pd_neg_entry, hxneg]⟩
  simp [validate_data, validate_data_st, pd_empty, pd_len, pd_isnull_any,
    pd_neg_any, h1, h2, h3, h4]

/-- The held-out window never exceeds the series length. -/
theorem test_period_le (n : Nat) : test_period n ≤ n :=
  le_trans (min_le_right _ _) (Nat.div_le_self n 3)

/-- A validated series (at least 14 points) yields a held-out window of at
least 4 days. -/
theorem test_period_pos_of_14 (n : Nat) (h : 14 ≤ n) : 4 ≤ test_period n := by
  unfold test_period
  omega

/-- Length of the Python slice `xs[:-t]` for positive `t`. -/
theorem sliceDropLast_length (s : Series) (t : Nat) (ht : t ≠ 0) :
    (sliceDropLast s t).length = s.length - t := by
  simp [sliceDropLast, ht, List.length_take]

/-- Length of the Python slice `xs[-t:]` for positive `t` within range. -/
theorem sliceLast_length (s : Series) (t : Nat) (ht : t ≠ 0)
    (hle : t ≤ s.length) :
    (sliceLast s t).length = t := by
  simp [sliceLast, ht, List.length_drop]
  omega

/-- For positive `t` the two Python slices recompose the series. -/
theorem slice_append (s : Series) (t : Nat) (ht : t ≠ 0) :
    sliceDropLast s t ++ sliceLast s t = s := by
  simp [sliceDropLast, sliceLast, ht, List.take_append_drop]

/-- A sum of nonnegative rationals vanishes only when every term does. -/
theorem sum_eq_zero_iff_of_nonneg (l : List ℚ) (h : ∀ x ∈ l, 0 ≤ x) :
    l.sum = 0 ↔ ∀ x ∈ l, x = 0 := by
  induction l with
  | nil => simp
  | cons y t ih =>
    have hy : 0 ≤ y := h y (List.mem_cons_self y t)
    have ht : ∀ x ∈ t, 0 ≤ x := fun x hx => h x (List.mem_cons_of_mem y hx)
    rw [List.sum_cons, add_eq_zero_iff_of_nonneg hy (List.sum_nonneg ht), ih ht]
    constructor
    · rintro ⟨hz, hall⟩ z hz2
      rcases List.mem_cons.mp hz2 with h | h
      · rwa [h]
      · exact hall z h
    · intro hall
      exact ⟨hall y (List.mem_cons_self y t),
        fun z hz => hall z (List.mem_cons_of_mem y hz)⟩

/-- The squared pointwise differences all vanish exactly when the two
lists coincide (given equal lengths). -/
theorem zip_sq_all_zero_iff (a : List ℚ) :
    ∀ p : List ℚ, a.length = p.length →
      ((∀ x ∈ (a.zip p).map (fun q => (q.1 - q.2) ^ 2), x = 0) ↔ a = p) := by
  induction a with
  | nil =>
    intro p hlen
    cases p with
    | nil => simp
    | cons y u => simp at hlen
  | cons x t ih =>
    intro p hlen
    cases p with
    | nil => simp at hlen
    | cons y u =>
      have hlen' : t.length = u.length := by simpa using hlen
      simp only [List.zip_cons_cons, List.map_cons, List.mem_cons]
      constructor
      · intro hz
        have h1 : (x - y) ^ 2 = 0 := hz _ (Or.inl rfl)
        have hxy : x = y := sub_eq_zero.mp (sq_eq_zero_iff.mp h1)
        have h2 : t = u := (ih u hlen').mp (fun z hzz => hz z (Or.inr hzz))
        rw [hxy, h2]
      · intro he z hz
        injection he with hxy htu
        subst hxy
        subst htu
        rcases hz with h | h
        · simp [h]
        · exact (ih t rfl).mpr rfl z h

/-- The mean squared error is nonnegative. -/
theorem mse_nonneg (a p : List ℚ) : 0 ≤ mse a p := by
  unfold mse
  apply div_nonneg
  · apply List.sum_nonneg
    intro x hx
    obtain ⟨q, _, rfl⟩ := List.mem_map.mp hx
    exact sq_nonneg _
  · exact Nat.cast_nonneg _

/-- The sklearn MAPE is nonnegative: each summand divides a nonnegative
numerator by a positive (epsilon-floored) denominator. -/
theorem sk_mape_nonneg (a p : List ℚ) : 0 ≤ sk_mape a p := by
  unfold sk_mape
  apply div_nonneg
  · apply List.sum_nonneg
    intro x hx
    obtain ⟨q, _, rfl⟩ := List.mem_map.mp hx
    exact div_nonneg (abs_nonneg _) (le_trans (abs_nonneg _) (le_max_left _ _))
  · exact Nat.cast_nonneg _

/-- For equal-length nonempty inputs, the mean squared error vanishes
exactly when the two sequences coincide pointwise. -/
theorem mse_eq_zero_iff (a p : List ℚ) (hlen : a.length = p.length)
    (hne : a ≠ []) : mse a p = 0 ↔ a = p := by
  unfold mse
  have hn : (a.length : ℚ) ≠ 0 :=
    Nat.cast_ne_zero.mpr (fun h => hne (List.length_eq_zero.mp h))
  rw [div_eq_zero_iff]
  have hterms : ∀ x ∈ (a.zip p).map (fun q => (q.1 - q.2) ^ 2), 0 ≤ x := by
    intro x hx
    obtain ⟨q, _, rfl⟩ := List.mem_map.mp hx
    exact sq_nonneg _
  rw [sum_eq_zero_iff_of_nonneg _ hterms]
  simp only [hn, or_false]
  exact zip_sq_all_zero_iff a p hlen

/-- On equal-length nonempty inputs `evaluate_forecast` takes the ok path
of its try block. -/
theorem evaluate_forecast_ok (a p : List ℚ) (hlen : a.length = p.length)
    (hne : a ≠ []) :
    evaluate_forecast a p = ⟨some (mse a p), some (100 * sk_mape a p)⟩ := by
  have hn : a.length ≠ 0 := fun h => hne (List.length_eq_zero.mp h)
  simp only [evaluate_forecast, evaluate_body]
  rw [if_pos ⟨hlen, hn⟩]

/-! Concrete inputs used by witnesses and counterexamples. -/

/-- A 14-point series whose first value is negative. -/
def s14neg : Series := some (-1) :: List.replicate 13 (some 1)

/-- A valid constant 14-point series. -/
def s14 : Series := List.replicate 14 (some 1)

/-- A 10-point series, as in end-to-end scenario B. -/
def s10 : Series := List.replicate 10 (some 1)

/-- A valid constant 30-point series. -/
def s30 : Series := List.replicate 30 (some 1)

/-- A degenerate model handle whose forecasts are identically zero. -/
def fc0 : ForecastOutput := ⟨fun _ => 0, fun _ => 0, fun _ => 0⟩

/-- Environment feeding the negative-value series to the orchestrator. -/
def env1 : Env := ⟨some s14neg, 0, true, some fc0, true, some (fun _ => 1)⟩

/-- Environment for a fully successful 30-day run. -/
def env6 : Env := ⟨some s30, 0, true, some fc0, true, some (fun _ => 1)⟩

/-- Environment feeding the 10-point series. -/
def env8 : Env := ⟨some s10, 0, true, some fc0, true, some (fun _ => 1)⟩

/-- Environment feeding the empty series. -/
def env8e : Env := ⟨some [], 0, true, some fc0, true, some (fun _ => 1)⟩

/-! Claim theorems. -/

/-- C1 counterexample: the one-point series containing only the negative
value -1 contains a negative value, yet `validate_data` rejects it with
`InsufficientData`, because the length check of line 44 runs before the
negative-value check of line 54; the reported reason is not
`NegativeValues`. -/
theorem validate_negative_short_series_cex :
    some (-1 : ℚ) ∈ ([some (-1)] : Series) ∧ (-1 : ℚ) < 0 ∧
    validate_data [some (-1)] = some ValidationReason.InsufficientData ∧
    ValidationReason.InsufficientData ≠ ValidationReason.NegativeValues := by
  refine ⟨by simp, by norm_num, by decide, by decide⟩

/-- C1 (amended): a series with at least 14 points and no missing values
that contains at least one negative value always fails validation with
`NegativeValues`, and every orchestrator run over such a series stops at
validation: it fails with that reason and no train/test split is ever
performed. -/
theorem validate_negative_rejected (s : Series) (hlen : 14 ≤ s.length)
    (hmiss : ∀ v ∈ s, v ≠ none) (hneg : ∃ x : ℚ, some x ∈ s ∧ x < 0) :
    validate_data s = some ValidationReason.NegativeValues ∧
    ∀ env : Env, env.csv = some s →
      (main_run env).2 =
        RunResult.failed (FailCause.validation ValidationReason.NegativeValues) ∧
      ∀ e ∈ (main_run env).1, e.isSplitEvent = false := by
  have hv := validate_data_negative s hlen hmiss hneg
  refine ⟨hv, ?_⟩
  intro env hcsv
  obtain ⟨csv, ld, ff, ffc, ft, tpred⟩ := env
  simp only at hcsv
  subst hcsv
  simp only [main_run, hv]
  refine ⟨by trivial, ?_⟩
  intro e he
  simp only [List.mem_singleton] at he
  subst he
  rfl

/-- C1 witness: the amended theorem evaluated on a concrete 14-point
series whose first value is negative, run through the orchestrator. -/
theorem validate_negative_rejected_witness :
    validate_data s14neg = some ValidationReason.NegativeValues ∧
    (main_run env1).2 =
      RunResult.failed (FailCause.validation ValidationReason.NegativeValues) ∧
    ∀ e ∈ (main_run env1).1, e.isSplitEvent = false := by
  have h := validate_negative_rejected s14neg (by decide) (by decide)
    ⟨-1, by decide, by decide⟩
  exact ⟨h.1, (h.2 env1 rfl).1, (h.2 env1 rfl).2⟩

/-- C9: `validate_data` is pure: the pandas reads it performs hand the
series back unchanged, so the state after the call is the input itself,
and a second call on that state returns the same outcome and the same
state as the first. -/
theorem validate_data_pure (s : Series) :
    (validate_data_st s).2 = s ∧
    validate_data_st ((validate_data_st s).2) = validate_data_st s := by
  have h := validate_data_st_frame s
  exact ⟨h, by rw [h]⟩

/-- C3: for every validated series, the train/test split of `main` holds
out exactly `min 30 (len / 3)` most recent points as the test suffix,
the train slice is the complementary prefix (so train followed by test
recomposes the full series with train entirely preceding test), and a
held-out window under 7 days only raises the warning flag of line 378
without failing. -/
theorem main_split_spec (s : Series) (hval : validate_data s = none) :
    (split_data s).1 ++ (split_data s).2.1 = s ∧
    (split_data s).2.1.length = min 30 (s.length / 3) ∧
    (split_data s).1 = s.take (s.length - test_period s.length) ∧
    (split_data s).2.1 = s.drop (s.length - test_period s.length) ∧
    ((split_data s).2.2 = true ↔ test_period s.length < 7) := by
  have h14 : 14 ≤ s.length := ((validate_data_eq_none_iff s).mp hval).1
  have h4 : 4 ≤ test_period s.length := test_period_pos_of_14 _ h14
  have ht0 : test_period s.length ≠ 0 := by omega
  have hle : test_period s.length ≤ s.length := test_period_le _
  simp only [split_data]
  refine ⟨slice_append s _ ht0, ?_, ?_, ?_, ?_⟩
  · rw [sliceLast_length s _ ht0 hle]
    rfl
  · simp [sliceDropLast, ht0]
  · simp [sliceLast, ht0]
  · simp

/-- C3 witness: the split invariants evaluated on a concrete valid
14-point series (held-out window 4 days, inside the warning range). -/
theorem main_split_spec_witness :
    (split_data s14).1 ++ (split_data s14).2.1 = s14 ∧
    (split_data s14).2.1.length = min 30 (s14.length / 3) ∧
    (split_data s14).1 = s14.take (s14.length - test_period s14.length) ∧
    (split_data s14).2.1 = s14.drop (s14.length - test_period s14.length) ∧
    ((split_data s14).2.2 = true ↔ test_period s14.length < 7) :=
  main_split_spec s14 (by decide)

/-- C4: the parameter selector always returns order (1,1,1) and seasonal
order (1,1,1,period), with period 12 when the series has at least 365
points and 7 otherwise; it is total, the except fallback of line 105
being unreachable because its try body cannot raise. -/
theorem determine_optimal_parameters_spec (s : Series) :
    determine_optimal_parameters s =
      ((1, 1, 1), (1, 1, 1, if 365 ≤ s.length then 12 else 7)) := rfl

/-- C2 counterexample: with actual `[0]` and predicted `[1]`, an actual
value is zero, yet the MAPE returned by `evaluate_forecast` is the finite
number `100 * 2 ^ 52`: sklearn replaces the zero denominator with the
machine epsilon `2 ^ (-52)` instead of producing NaN, and no exception
reaches the except branch that would return NaN. -/
theorem evaluate_forecast_zero_actual_cex :
    (0 : ℚ) ∈ ([0] : List ℚ) ∧
    (evaluate_forecast [0] [1]).mape = some (100 * 2 ^ 52) := by
  constructor
  · simp
  · rw [evaluate_forecast_ok [0] [1] rfl (by simp)]
    have h1 : sk_mape [0] [1] = 2 ^ 52 := by
      simp only [sk_mape, eps, List.zip_cons_cons, List.zip_nil_right,
        List.map_cons, List.map_nil, List.sum_cons, List.sum_nil,
        List.length_cons, List.length_nil, abs_zero]
      rw [max_eq_right (by norm_num : (0 : ℚ) ≤ 1 / 2 ^ 52)]
      norm_num
    rw [h1]

/-- C2 (amended): for equal-length nonempty sequences in which some
actual value is zero, `evaluate_forecast` still returns a finite,
nonnegative MAPE - the mean of `|a - p| / max |a| eps` scaled by 100 -
rather than NaN. -/
theorem evaluate_forecast_zero_actual_finite (a p : List ℚ)
    (hlen : a.length = p.length) (hne : a ≠ []) (_hz : (0 : ℚ) ∈ a) :
    (evaluate_forecast a p).mape = some (100 * sk_mape a p) ∧
    0 ≤ 100 * sk_mape a p := by
  refine ⟨?_, mul_nonneg (by norm_num) (sk_mape_nonneg a p)⟩
  rw [evaluate_forecast_ok a p hlen hne]

/-- C2 witness: the amended statement at actual `[0]`, predicted `[2]`. -/
theorem evaluate_forecast_zero_actual_finite_witness :
    (evaluate_forecast [0] [2]).mape = some (100 * sk_mape [0] [2]) ∧
    0 ≤ 100 * sk_mape [0] [2] :=
  evaluate_forecast_zero_actual_finite [0] [2] rfl (by decide) (by decide)

/-- C7 counterexample: the empty pair has equal lengths and the predicted
sequence equals the actual one pointwise, but the sklearn calls raise on
empty input, so `evaluate_forecast` returns the NaN dictionary: RMSE is
NaN rather than 0, refuting the claim over all equal-length pairs. -/
theorem evaluate_forecast_empty_cex :
    ([] : List ℚ).length = ([] : List ℚ).length ∧
    evaluate_forecast [] [] = nanMetrics ∧ nanMetrics.rmseSq = none := by
  refine ⟨rfl, by decide, rfl⟩

/-- C7 (amended): for every pair of equal-length NONEMPTY sequences the
returned RMSE and MAPE are nonnegative and RMSE vanishes exactly when the
predicted sequence equals the actual one pointwise; at the empty pair the
code instead returns NaN metrics. -/
theorem evaluate_forecast_metric_properties (a p : List ℚ)
    (hlen : a.length = p.length) (hne : a ≠ []) :
    evaluate_forecast a p = ⟨some (mse a p), some (100 * sk_mape a p)⟩ ∧
    0 ≤ Real.sqrt ((mse a p : ℚ) : ℝ) ∧
    0 ≤ 100 * sk_mape a p ∧
    (Real.sqrt ((mse a p : ℚ) : ℝ) = 0 ↔ p = a) := by
  refine ⟨evaluate_forecast_ok a p hlen hne, Real.sqrt_nonneg _,
    mul_nonneg (by norm_num) (sk_mape_nonneg a p), ?_⟩
  rw [Real.sqrt_eq_zero']
  constructor
  · intro hle
    have h0 : mse a p = 0 :=
      le_antisymm (by exact_mod_cast hle) (mse_nonneg a p)
    exact ((mse_eq_zero_iff a p hlen hne).mp h0).symm
  · intro hpa
    have h0 : mse a p = 0 := (mse_eq_zero_iff a p hlen hne).mpr hpa.symm
    rw [h0]
    norm_num

/-- C7 witness: the metric properties at the concrete equal pair
`[1, 2]`, `[1, 2]`. -/
theorem evaluate_forecast_metric_properties_witness :
    evaluate_forecast [1, 2] [1, 2] =
      ⟨some (mse [1, 2] [1, 2]), some (100 * sk_mape [1, 2] [1, 2])⟩ ∧
    0 ≤ Real.sqrt ((mse [1, 2] [1, 2] : ℚ) : ℝ) ∧
    0 ≤ 100 * sk_mape [1, 2] [1, 2] ∧
    (Real.sqrt ((mse [1, 2] [1, 2] : ℚ) : ℝ) = 0 ↔
      ([1, 2] : List ℚ) = [1, 2]) :=
  evaluate_forecast_metric_properties [1, 2] [1, 2] rfl (by decide)

/-- C10: whenever the metric computation inside the try block of
`evaluate_forecast` raises - the sklearn calls reject mismatched lengths
and empty inputs - the except branch returns the metrics dictionary with
both RMSE and MAPE set to NaN instead of propagating the exception; the
wrapper is total by construction. -/
theorem evaluate_forecast_total (a p : List ℚ)
    (h : a.length ≠ p.length ∨ a.length = 0) :
    evaluate_body a p = Except.error () ∧
    evaluate_forecast a p = nanMetrics := by
  have hcond : ¬ (a.length = p.length ∧ a.length ≠ 0) := by tauto
  refine ⟨?_, ?_⟩
  · simp only [evaluate_body]
    rw [if_neg hcond]
  · simp only [evaluate_forecast, evaluate_body]
    rw [if_neg hcond]

/-- C10 witness: the NaN fallback at the mismatched pair `[1]`, `[]`. -/
theorem evaluate_forecast_total_witness :
    evaluate_body [1] [] = Except.error () ∧
    evaluate_forecast [1] [] = nanMetrics :=
  evaluate_forecast_total [1] [] (Or.inl (by decide))

/-- C5: a 180-day forecast request on a trained model handle succeeds and
returns exactly 180 rows; row `i` carries the date `last_date + 1 + i`,
so the dates are contiguous (each successor date is the predecessor plus
one) and strictly increasing starting the day after the last training
date; and whenever the model's confidence interval brackets its
predicted mean - the contract of the statsmodels `conf_int` columns the
code copies - every row satisfies lower ≤ predicted ≤ upper. -/
theorem make_future_predictions_horizon_180 (f : ForecastOutput) (d : ℤ)
    (hb : ∀ i : Nat, f.lower i ≤ f.mean i ∧ f.mean i ≤ f.upper i) :
    make_future_predictions (some f) d 180 = some (forecast_rows f d 180) ∧
    (forecast_rows f d 180).length = 180 ∧
    (∀ i (hi : i < (forecast_rows f d 180).length),
      ((forecast_rows f d 180).get ⟨i, hi⟩).date = d + 1 + (i : ℤ)) ∧
    (∀ i (hi : i + 1 < (forecast_rows f d 180).length)
        (hi2 : i < (forecast_rows f d 180).length),
      ((forecast_rows f d 180).get ⟨i + 1, hi⟩).date =
        ((forecast_rows f d 180).get ⟨i, hi2⟩).date + 1) ∧
    (∀ r ∈ forecast_rows f d 180,
      r.lower_ci ≤ r.predicted_sales ∧ r.predicted_sales ≤ r.upper_ci) := by
  have hget : ∀ i (hi : i < (forecast_rows f d 180).length),
      ((forecast_rows f d 180).get ⟨i, hi⟩).date = d + 1 + (i : ℤ) := by
    intro i hi
    simp [forecast_rows, List.get_eq_getElem]
  refine ⟨?_, by simp [forecast_rows], hget, ?_, ?_⟩
  · simp only [make_future_predictions]
    rw [if_neg (by norm_num)]
    rfl
  · intro i hi hi2
    rw [hget i.succ hi, hget i hi2]
    push_cast
    ring
  · intro r hr
    obtain ⟨i, _, rfl⟩ := List.mem_map.mp hr
    exact hb i

/-- C5 witness: the 180-day forecast contract at the all-zero model
handle and last date 0. -/
theorem make_future_predictions_horizon_180_witness :
    make_future_predictions (some fc0) 0 180 = some (forecast_rows fc0 0 180) ∧
    (forecast_rows fc0 0 180).length = 180 ∧
    (∀ i (hi : i < (forecast_rows fc0 0 180).length),
      ((forecast_rows fc0 0 180).get ⟨i, hi⟩).date = 0 + 1 + (i : ℤ)) ∧
    (∀ i (hi : i + 1 < (forecast_rows fc0 0 180).length)
        (hi2 : i < (forecast_rows fc0 0 180).length),
      ((forecast_rows fc0 0 180).get ⟨i + 1, hi⟩).date =
        ((forecast_rows fc0 0 180).get ⟨i, hi2⟩).date + 1) ∧
    (∀ r ∈ forecast_rows fc0 0 180,
      r.lower_ci ≤ r.predicted_sales ∧ r.predicted_sales ≤ r.upper_ci) :=
  make_future_predictions_horizon_180 fc0 0 (fun _ => ⟨le_rfl, le_rfl⟩)

/-- C8 counterexample: the empty series has fewer than 14 points, yet the
orchestrator run over it fails with reason `EmptySeries` - the emptiness
check of line 39 fires before the length check of line 44 - and not with
`InsufficientData`. -/
theorem main_short_series_cex :
    ([] : Series).length < 14 ∧
    (main_run env8e).2 =
      RunResult.failed (FailCause.validation ValidationReason.EmptySeries) ∧
    ValidationReason.EmptySeries ≠ ValidationReason.InsufficientData := by
  refine ⟨by decide, by decide, by decide⟩

/-- C8 (amended): every orchestrator run over a NONEMPTY series with
fewer than 14 points fails with `InsufficientData`, and no model trainer
is invoked during the run (the empty series instead fails with
`EmptySeries`, likewise without training). -/
theorem main_insufficient_data (env : Env) (s : Series)
    (hcsv : env.csv = some s) (hne : s ≠ []) (hlen : s.length < 14) :
    (main_run env).2 =
      RunResult.failed (FailCause.validation ValidationReason.InsufficientData) ∧
    ∀ e ∈ (main_run env).1, e.isTrainEvent = false := by
  have h1 : s.isEmpty = false := by
    cases s with
    | nil => exact absurd rfl hne
    | cons a t => rfl
  have hv : validate_data s = some ValidationReason.InsufficientData := by
    simp [validate_data, validate_data_st, pd_empty, pd_len, pd_isnull_any,
      pd_neg_any, h1, hlen]
  obtain ⟨csv, ld, ff, ffc, ft, tpred⟩ := env
  simp only at hcsv
  subst hcsv
  simp only [main_run, hv]
  refine ⟨by trivial, ?_⟩
  intro e he
  simp only [List.mem_singleton] at he
  subst he
  rfl

/-- C8 witness: the amended statement at the concrete 10-point series of
end-to-end scenario B. -/
theorem main_insufficient_data_witness :
    (main_run env8).2 =
      RunResult.failed (FailCause.validation ValidationReason.InsufficientData) ∧
    ∀ e ∈ (main_run env8).1, e.isTrainEvent = false :=
  main_insufficient_data env8 s10 rfl (by decide) (by decide)

/-- C6 counterexample: a fully successful concrete run terminates in
`done`, but its trace places the future-forecast stage at position 2 and
the held-out evaluation at position 5: evaluation does NOT complete
before the final forecast is generated - `main` forecasts at line 371 and
only then splits, retrains and evaluates at lines 377-399. -/
theorem main_stage_order_cex :
    (main_run env6).2.isDone = true ∧
    stagePrecedes (main_run env6).1 Event.isEvalEvent Event.isForecastEvent
      = false ∧
    stagePrecedes (main_run env6).1 Event.isForecastEvent Event.isEvalEvent
      = true := by
  refine ⟨by decide, by decide, by decide⟩

/-- C6 (amended): every successful run performs, in order: validation,
training on the FULL series, generation of the 180-day future forecast
from that full-series model, the train/test split, training on the train
slice, the held-out evaluation, and reporting.  The final forecast is
indeed produced by a model trained on the full series (train plus test),
but it is generated BEFORE the held-out evaluation, not after it. -/
theorem main_stage_order (env : Env) (s : Series) (f : ForecastOutput)
    (hcsv : env.csv = some s) (hval : validate_data s = none)
    (h30 : 30 ≤ s.length) (hfit : env.fitFull = true)
    (hfc : env.fullForecast = some f) (hfit2 : env.fitTrain = true) :
    (main_run env).1 =
      [Event.validated true, Event.trained s.length, Event.forecasted 180,
        Event.splitDone (s.length - test_period s.length) (test_period s.length),
        Event.trained (s.length - test_period s.length),
        Event.evaluated, Event.reported] ∧
    (main_run env).2.isDone = true := by
  have h14 : 14 ≤ s.length := by omega
  have h4 : 4 ≤ test_period s.length := test_period_pos_of_14 _ h14
  have ht0 : test_period s.length ≠ 0 := by omega
  have hle : test_period s.length ≤ s.length := test_period_le _
  obtain ⟨csv, ld, ff, ffc, ft, tpred⟩ := env
  simp only at hcsv hfit hfc hfit2
  subst hcsv
  subst hfit
  subst hfc
  subst hfit2
  have hmf : make_future_predictions (some f) ld 180 =
      some (forecast_rows f ld 180) := by
    simp only [make_future_predictions]
    rw [if_neg (by norm_num)]
    rfl
  simp only [main_run, hval, hmf]
  rw [if_neg (Nat.not_lt.mpr h30)]
  simp only [if_true]
  rw [sliceDropLast_length s _ ht0, sliceLast_length s _ ht0 hle]
  exact ⟨rfl, rfl⟩

/-- C6 witness: the amended stage order at the concrete successful
30-point run. -/
theorem main_stage_order_witness :
    (main_run env6).1 =
      [Event.validated true, Event.trained 30, Event.forecasted 180,
        Event.splitDone 20 10, Event.trained 20,
        Event.evaluated, Event.reported] ∧
    (main_run env6).2.isDone = true := by
  have h := main_stage_order env6 s30 fc0 rfl (by decide) (by decide)
    rfl rfl rfl
  simpa [s30, test_period] using h

end SalesForecasting
